import Mathlib

/-!
Verification of the Streamr BrubeckScan dashboard (`streamr_app.py`) against
its natural-language specification.

The program is shallowly embedded: JSON payloads are an inductive `Json` type
with rational numbers for JSON numerics, HTTP GET is an oracle
`String → Option Json` (the `fetch_data` wrapper maps every
`requests.exceptions.RequestException` — network error, non-2xx via
`raise_for_status`, malformed JSON body — to `None`, hence `Option`), Python
exceptions raised during rendering become `Except String` values carrying the
exception class name, and each Streamlit widget call is recorded as a
`DisplayEvent`.  Functions keep the names of the Python functions they embed.
-/

/-- JSON values as produced by `response.json()`.  Objects keep their fields
as an insertion-ordered association list (Python 3.7+ `dict` preserves
insertion order; keys produced by `json` decoding are unique). -/
inductive Json where
  | null
  | bool (b : Bool)
  | num (q : ℚ)
  | str (s : String)
  | arr (elems : List Json)
  | obj (fields : List (String × Json))

/-- Python subscript `j[k]` with a string key: succeeds only on a dict that
has the key (`KeyError` otherwise); every other payload raises `TypeError`. -/
def Json.item : Json → String → Except String Json
  | .obj fields, k =>
    match fields.lookup k with
    | some v => Except.ok v
    | none => Except.error "KeyError"
  | _, _ => Except.error "TypeError"

/-- Substring test used to model Python's `key in someString`.  Implemented by
scanning the character list structurally. -/
def strContainsSub (hay need : List Char) : Bool :=
  match hay with
  | [] => need = []
  | _ :: rest =>
    (need.isPrefixOf hay) || strContainsSub rest need

/-- Python's `k in j` for a string `k`: key lookup on dicts, substring test on
strings, element test on lists (a list element equals the string `k` only if
it is that very string), and `TypeError` on the remaining payload shapes. -/
def pyContains (j : Json) (k : String) : Except String Bool :=
  match j with
  | .obj fields => Except.ok (fields.lookup k).isSome
  | .str s => Except.ok (strContainsSub s.toList k.toList)
  | .arr l =>
    Except.ok (l.any fun e =>
      match e with
      | .str s => s = k
      | _ => false)
  | _ => Except.error "TypeError"

/-- Python truthiness of a decoded JSON value (`bool(j)`). -/
def pyTruthy : Json → Bool
  | .null => false
  | .bool b => b
  | .num q => !(q = 0)
  | .str s => !(s = "")
  | .arr l => !l.isEmpty
  | .obj fields => !fields.isEmpty

/-- Replace the value stored under key `k` (keeping its position, as a Python
dict update does).  Leaves the value unchanged when the key is absent or the
value is not a dict; the embedding only applies it after a successful lookup. -/
def Json.setKey : Json → String → Json → Json
  | .obj fields, k, v => .obj (fields.map fun kv => if kv.1 = k then (k, v) else kv)
  | j, _, _ => j

/-- Truncation of a rational toward zero, the behaviour of Python `int()` on a
float value. -/
def ratTruncToward0 (q : ℚ) : ℤ :=
  if q < 0 then ⌈q⌉ else ⌊q⌋

/-- Digit run to a natural number; `none` when empty or any non-digit occurs. -/
def digitsToNat? (cs : List Char) : Option Nat :=
  match cs with
  | [] => none
  | _ =>
    cs.foldl
      (fun acc c =>
        match acc with
        | none => none
        | some a => if c.isDigit then some (a * 10 + (c.toNat - 48)) else none)
      (some 0)

/-- Integer literal parse, for Python `int()` applied to a string: optional
sign followed by digits.  (Surrounding whitespace and underscores accepted by
CPython are not modelled; the dashboard's payloads do not use them.) -/
def parseIntChars? (cs : List Char) : Option ℤ :=
  match cs with
  | '-' :: rest => (digitsToNat? rest).map fun n => -(n : ℤ)
  | '+' :: rest => (digitsToNat? rest).map fun n => (n : ℤ)
  | _ => (digitsToNat? cs).map fun n => (n : ℤ)

/-- Decimal literal parse, for Python `float()` applied to a string: optional
sign, digits around an optional point, at least one digit overall.  (Exponent
notation, `inf`/`nan` and surrounding whitespace are not modelled; the
dashboard's payloads do not use them.) -/
def parseFloatChars? (cs : List Char) : Option ℚ :=
  let core : List Char → Option ℚ := fun body =>
    match body.splitOn '.' with
    | [intPart] => (digitsToNat? intPart).map fun n => Rat.divInt n 1
    | [intPart, fracPart] =>
      if intPart = [] && fracPart = [] then none
      else
        match (if intPart = [] then some 0 else digitsToNat? intPart),
              (if fracPart = [] then some 0 else digitsToNat? fracPart) with
        | some ip, some fp =>
          some (Rat.divInt (ip * 10 ^ fracPart.length + fp) (10 ^ fracPart.length))
        | _, _ => none
    | _ => none
  match cs with
  | '-' :: rest => (core rest).map fun q => -q
  | '+' :: rest => core rest
  | _ => core cs

/-- Python `int(x)` on a decoded JSON value: truncate numbers toward zero,
parse integer strings, map booleans to 0/1, raise `TypeError` otherwise. -/
def pyIntCoerce (j : Json) : Except String ℤ :=
  match j with
  | .num q => Except.ok (ratTruncToward0 q)
  | .bool b => Except.ok (if b then 1 else 0)
  | .str s =>
    match parseIntChars? s.toList with
    | some n => Except.ok n
    | none => Except.error "ValueError"
  | _ => Except.error "TypeError"

/-- Python `float(x)` on a decoded JSON value: numbers pass through, decimal
strings are parsed, booleans map to 0/1, anything else raises `TypeError`. -/
def pyFloatCoerce (j : Json) : Except String ℚ :=
  match j with
  | .num q => Except.ok q
  | .bool b => Except.ok (if b then 1 else 0)
  | .str s =>
    match parseFloatChars? s.toList with
    | some q => Except.ok q
    | none => Except.error "ValueError"
  | _ => Except.error "TypeError"

/-- First argument of Python `round(x, 2)`: numbers and booleans are accepted,
other payloads raise `TypeError`. -/
def pyRoundArg (j : Json) : Except String ℚ :=
  match j with
  | .num q => Except.ok q
  | .bool b => Except.ok (if b then 1 else 0)
  | _ => Except.error "TypeError"

/-- Round half to even of `q * 100`, computed on the numerator/denominator so
that the kernel can evaluate it.  `100 * num = floor * den + rem` with
`0 ≤ rem < den`; compare `2 * rem` with `den` to decide the direction, ties
going to the even integer, as Python `round` does on exact values. -/
def roundHalfEven100 (q : ℚ) : ℤ :=
  let n : ℤ := 100 * q.num
  let d : ℤ := (q.den : ℤ)
  let f : ℤ := Int.ediv n d
  let r2 : ℤ := 2 * Int.emod n d
  if r2 < d then f
  else if d < r2 then f + 1
  else if Int.emod f 2 = 0 then f else f + 1

/-- Python `round(q, 2)` on an exact rational value. -/
def pyRound2 (q : ℚ) : ℚ :=
  Rat.divInt (roundHalfEven100 q) 100

/-! ### Calendar arithmetic

Proleptic Gregorian conversions between epoch day counts and civil dates,
embedding the arithmetic that CPython's `datetime` performs.  `Int.ediv` and
`Int.emod` give floor division/Euclidean remainder for the positive divisors
used here. -/

/-- Civil date `(year, month, day)` of a day count relative to 1970-01-01. -/
def civilFromDays (z : ℤ) : ℤ × ℕ × ℕ :=
  let z' := z + 719468
  let era := Int.ediv z' 146097
  let doe := (Int.emod z' 146097).toNat
  let yoe := (doe - doe / 1460 + doe / 36524 - doe / 146096) / 365
  let y : ℤ := (yoe : ℤ) + era * 400
  let doy := doe - (365 * yoe + yoe / 4 - yoe / 100)
  let mp := (5 * doy + 2) / 153
  let d := doy - (153 * mp + 2) / 5 + 1
  let m := if mp < 10 then mp + 3 else mp - 9
  (if m ≤ 2 then y + 1 else y, m, d)

/-- Day count relative to 1970-01-01 of a civil date. -/
def daysFromCivil (y : ℤ) (m d : ℕ) : ℤ :=
  let y' := if m ≤ 2 then y - 1 else y
  let era := Int.ediv y' 400
  let yoe := (y' - era * 400).toNat
  let mp := if 2 < m then m - 3 else m + 9
  let doy := (153 * mp + 2) / 5 + d - 1
  let doe := yoe * 365 + yoe / 4 - yoe / 100 + doy
  era * 146097 + (doe : ℤ) - 719468

/-- Weekday of an epoch day count, `0` = Sunday (1970-01-01 was a Thursday). -/
def weekdaySunday0 (z : ℤ) : ℕ :=
  (Int.emod (z + 4) 7).toNat

/-- A naive `datetime.datetime` value (microseconds are parsed but never
displayed by the dashboard, so they are not stored). -/
structure PyDateTime where
  year : ℤ
  month : ℕ
  day : ℕ
  hour : ℕ
  minute : ℕ
  second : ℕ

/-- Seconds since the epoch of a naive datetime read as UTC. -/
def toEpochSeconds (dt : PyDateTime) : ℤ :=
  daysFromCivil dt.year dt.month dt.day * 86400
    + (dt.hour : ℤ) * 3600 + (dt.minute : ℤ) * 60 + (dt.second : ℤ)

/-- Naive datetime of an epoch-second count, i.e. `datetime.utcfromtimestamp`
(modulo the `datetime` year range, which the embedding does not bound). -/
def utcfromtimestamp (t : ℤ) : PyDateTime :=
  let days := Int.ediv t 86400
  let sod := (Int.emod t 86400).toNat
  let c := civilFromDays days
  { year := c.1, month := c.2.1, day := c.2.2
    hour := sod / 3600, minute := sod / 60 % 60, second := sod % 60 }

/-- Gregorian leap-year rule. -/
def isLeapYear (y : ℤ) : Bool :=
  (Int.emod y 4 = 0 && !(Int.emod y 100 = 0)) || Int.emod y 400 = 0

/-- Length of a month, used to validate parsed dates as `datetime` does. -/
def daysInMonth (y : ℤ) (m : ℕ) : ℕ :=
  if m = 2 then (if isLeapYear y then 29 else 28)
  else if m = 4 || m = 6 || m = 9 || m = 11 then 30
  else 31

/-- Parse of `datetime.strptime(s, "%Y-%m-%dT%H:%M:%S.%fZ")`: date digits
separated by `-`, a literal `T`, time digits separated by `:`, a fractional
part of one to six digits after `.`, and a literal trailing `Z`; all fields
are range-checked as the `datetime` constructor requires.  `none` models the
`ValueError` CPython raises on any mismatch. -/
def strptimeIsoZ (s : String) : Option PyDateTime :=
  match (s.toList.splitOn 'T') with
  | [datePart, timePart] =>
    match datePart.splitOn '-' with
    | [ys, ms, ds] =>
      match timePart.splitOn ':' with
      | [hs, mins, secFrac] =>
        match secFrac.splitOn '.' with
        | [ss, fracZ] =>
          match fracZ.reverse with
          | 'Z' :: revFrac =>
            let frac := revFrac.reverse
            match digitsToNat? ys, digitsToNat? ms, digitsToNat? ds,
                  digitsToNat? hs, digitsToNat? mins, digitsToNat? ss,
                  digitsToNat? frac with
            | some y, some m, some d, some h, some mi, some sec, some _ =>
              if 1 ≤ y && y ≤ 9999 && 1 ≤ m && m ≤ 12 && 1 ≤ d
                  && d ≤ daysInMonth (y : ℤ) m && h ≤ 23 && mi ≤ 59 && sec ≤ 59
                  && 1 ≤ frac.length && frac.length ≤ 6 then
                some { year := (y : ℤ), month := m, day := d
                       hour := h, minute := mi, second := sec }
              else none
            | _, _, _, _, _, _, _ => none
          | _ => none
        | _ => none
      | _ => none
    | _ => none
  | _ => none

/-! ### Timezones and `strftime` formatting -/

/-- The slice of `pytz` the dashboard exercises: a zone maps a UTC instant to
its offset from UTC in seconds and its abbreviation.  (`pytz` is an external
dependency; only the zones the program and its spec use are modelled, with
the post-2007 United States DST rule for `US/Eastern`.) -/
structure TzInfo where
  utcOffsetSeconds : ℤ → ℤ
  tzAbbrev : ℤ → String

/-- Epoch day of the second Sunday of March (US DST start day). -/
def secondSundayOfMarch (y : ℤ) : ℤ :=
  let d1 := daysFromCivil y 3 1
  d1 + (((7 - weekdaySunday0 d1) % 7 : ℕ) : ℤ) + 7

/-- Epoch day of the first Sunday of November (US DST end day). -/
def firstSundayOfNovember (y : ℤ) : ℤ :=
  let d1 := daysFromCivil y 11 1
  d1 + (((7 - weekdaySunday0 d1) % 7 : ℕ) : ℤ)

/-- Whether a UTC instant falls in US daylight-saving time: from the second
Sunday of March, 02:00 EST (07:00 UTC), to the first Sunday of November,
02:00 EDT (06:00 UTC). -/
def usEasternIsDST (t : ℤ) : Bool :=
  let y := (civilFromDays (Int.ediv t 86400)).1
  let startT := secondSundayOfMarch y * 86400 + 7 * 3600
  let endT := firstSundayOfNovember y * 86400 + 6 * 3600
  startT ≤ t && t < endT

/-- The `US/Eastern` zone: UTC−5 (EST) outside DST, UTC−4 (EDT) inside. -/
def usEasternTz : TzInfo where
  utcOffsetSeconds t := if usEasternIsDST t then -4 * 3600 else -5 * 3600
  tzAbbrev t := if usEasternIsDST t then "EDT" else "EST"

/-- The `UTC` zone. -/
def utcTz : TzInfo where
  utcOffsetSeconds _ := 0
  tzAbbrev _ := "UTC"

/-- `pytz.timezone` on the zone names the program exercises; `none` models
`pytz.exceptions.UnknownTimeZoneError`. -/
def pytzTimezone : String → Option TzInfo
  | "UTC" => some utcTz
  | "US/Eastern" => some usEasternTz
  | _ => none

/-- Two-digit zero padding used by the numeric `strftime` directives. -/
def pad2 (n : ℕ) : String :=
  if n < 10 then "0" ++ toString n else toString n

/-- `%a` weekday abbreviations, Sunday first. -/
def weekdayNames : List String :=
  ["Sun", "Mon", "Tue", "Wed", "Thu", "Fri", "Sat"]

/-- `%b` month abbreviations, January = 1. -/
def monthNames : List String :=
  ["Jan", "Feb", "Mar", "Apr", "May", "Jun",
   "Jul", "Aug", "Sep", "Oct", "Nov", "Dec"]

/-- `strftime("%I:%M:%S %p")`: 12-hour clock with zero-padded hour and an
AM/PM marker. -/
def strftime12Hour (dt : PyDateTime) : String :=
  let h12 := if dt.hour % 12 = 0 then 12 else dt.hour % 12
  pad2 h12 ++ ":" ++ pad2 dt.minute ++ ":" ++ pad2 dt.second
    ++ " " ++ (if dt.hour < 12 then "AM" else "PM")

/-- `strftime("%a, %d %b %Y %H:%M:%S %Z")` given the zone abbreviation that
`%Z` prints. -/
def strftimeFull (dt : PyDateTime) (zoneAbbrev : String) : String :=
  let wd := weekdaySunday0 (daysFromCivil dt.year dt.month dt.day)
  (weekdayNames.getD wd "") ++ ", " ++ pad2 dt.day ++ " "
    ++ (monthNames.getD (dt.month - 1) "") ++ " " ++ toString dt.year ++ " "
    ++ pad2 dt.hour ++ ":" ++ pad2 dt.minute ++ ":" ++ pad2 dt.second
    ++ " " ++ zoneAbbrev

/-- `convert_time_to_user_tz` (lines 134-160): look the zone up, parse the ISO
string as a naive UTC datetime, shift it into the zone, and format it on a
12-hour clock.  Errors carry the exception the Python code would raise. -/
def convert_time_to_user_tz (time_str : String) (user_tz : String) :
    Except String String :=
  match pytzTimezone user_tz with
  | none => Except.error "UnknownTimeZoneError"
  | some tzi =>
    match strptimeIsoZ time_str with
    | none => Except.error "ValueError"
    | some dt =>
      let t := toEpochSeconds dt
      let dtUser := utcfromtimestamp (t + tzi.utcOffsetSeconds t)
      Except.ok (strftime12Hour dtUser)

/-- `convert_dt_to_user_tz` (lines 163-186): localize a naive datetime as UTC,
shift it into the requested zone, and format it with weekday, date, 24-hour
time, and zone abbreviation. -/
def convert_dt_to_user_tz (dt : PyDateTime) (user_tz : String) :
    Except String String :=
  match pytzTimezone user_tz with
  | none => Except.error "UnknownTimeZoneError"
  | some tzi =>
    let t := toEpochSeconds dt
    let dtUser := utcfromtimestamp (t + tzi.utcOffsetSeconds t)
    Except.ok (strftimeFull dtUser (tzi.tzAbbrev t))

/-! ### Fetch layer -/

/-- Modelled from the spec: `config.py` is imported by the program but absent
from the sources; the spec fixes four base URLs (node profile service,
rewards service, claim-stats service, APR/APY service).  Their concrete
values never matter to the claims; distinct placeholder strings stand in. -/
def API_BASE : String := "https://node-profile-service"

/-- Modelled from the spec: base URL of the accumulated-rewards service. -/
def DATA_REWARDS_BASE : String := "https://rewards-service"

/-- Modelled from the spec: base URL of the claim-stats service. -/
def CLAIMED_REWARDS_BASE : String := "https://claim-stats-service"

/-- Modelled from the spec: URL of the global APR/APY service. -/
def APR_APY_BASE : String := "https://apr-apy-service"

/-- Outcome of every HTTP GET the environment can give: `none` bundles all
failure modes that `fetch_data`'s `except requests.exceptions.RequestException`
clause catches (connection error, non-2xx status via `raise_for_status`, and
— with the `requests ≥ 2.27` JSONDecodeError hierarchy — a malformed JSON
body); `some j` is a 200 response whose body decoded to `j`. -/
def Oracle : Type := String → Option Json

/-- `fetch_data` (lines 34-50): one GET against the endpoint, `None` on any
request failure. -/
def fetch_data (oracle : Oracle) (endpoint : String) : Option Json :=
  oracle endpoint

/-- Endpoint interpolation of `fetch_node_data` (line 64). -/
def nodeEndpoint (node_address : String) : String :=
  API_BASE ++ "/nodes/" ++ node_address

/-- `fetch_node_data` (lines 53-64). -/
def fetch_node_data (oracle : Oracle) (node_address : String) : Option Json :=
  fetch_data oracle (nodeEndpoint node_address)

/-- The `data` dict of `get_metrics_data` (lines 78-82): sub-fetch key to URL,
in construction order. -/
def metricsSpec (node_address : String) : List (String × String) :=
  [("acc_rewards", DATA_REWARDS_BASE ++ "/" ++ node_address),
   ("claimed_rewards", CLAIMED_REWARDS_BASE ++ "/" ++ node_address),
   ("apr_apy", APR_APY_BASE)]

/-- `get_metrics_data` (lines 67-91): fetch the three metrics endpoints (the
thread pool runs them concurrently; each writes its own result slot, so the
bundle's contents do not depend on completion order) and keep exactly the
sub-fetches whose request succeeded. -/
def get_metrics_data (oracle : Oracle) (node_address : String) :
    List (String × Json) :=
  (metricsSpec node_address).filterMap fun kv =>
    (fetch_data oracle kv.2).map fun j => (kv.1, j)

/-- The URLs `get_metrics_data` requests, in submission order. -/
def metricsEndpoints (node_address : String) : List String :=
  (metricsSpec node_address).map Prod.snd

/-! ### Address validation -/

/-- Membership in `[a-fA-F0-9]`. -/
def isHexDigitChar (c : Char) : Bool :=
  c.isDigit || ('a' ≤ c && c ≤ 'f') || ('A' ≤ c && c ≤ 'F')

/-- The language of the regex `^0x[a-fA-F0-9]{40}$` under ordinary (POSIX)
anchoring: exactly `0x` followed by forty hexadecimal characters. -/
def matchesAddressRegex (s : String) : Bool :=
  match s.toList with
  | '0' :: 'x' :: rest => rest.length = 40 && rest.all isHexDigitChar
  | _ => false

/-- `re.match("^0x[a-fA-F0-9]{40}$", s)` converted to a boolean, with
Python's `$` semantics: `$` also matches just before a trailing newline, so a
43-character candidate ending in a newline passes too.  (The input widget
caps input at 42 characters, so the two readings agree on every string the
program can actually receive.) -/
def pyReMatchAddress (s : String) : Bool :=
  match s.toList.reverse with
  | '\n' :: revRest => matchesAddressRegex s || matchesAddressRegex (String.mk revRest.reverse)
  | _ => matchesAddressRegex s

/-! ### Presentation layer -/

/-- One Streamlit widget call, with the payload it would render.  Structured
payloads (`metric` values, claim-code ids) are retained as `Json` so that
"displayed exactly as extracted" is a statement about the event itself. -/
inductive DisplayEvent where
  | divider
  | title (text : String)
  | expander (label : String)
  | codeBlock (text : String)
  | errorMsg (text : String)
  | warningMsg (text : String)
  | header (text : String)
  | image (url : Json) (caption : String)
  | metric (label : String) (value : Json)
  | markdown (text : String)
  | selectbox (label : String) (selected : String)
  | codeLine (id : Json) (time : String)
  | payoutLine (time : String) (value : ℤ)
  | svgImage (path : String)

/-- `check_status` (lines 94-104). -/
def check_status (status : Json) : String :=
  if pyTruthy status then ":green[OK]" else ":red[NO]"

/-- `display_node_info` (lines 107-131): the node profile widgets in call
order.  Beyond raw extraction it truncates the address to its first four
characters plus an ellipsis, renders the status through `check_status`, and
rounds `toBeReceived` and `claimPercentage` to two decimals. -/
def display_node_info (node_address : String) (node_data : Json) :
    Except String (List DisplayEvent) := do
  let data ← node_data.item "data"
  let node ← data.item "node"
  let identicon ← node.item "identiconURL"
  let status ← node.item "status"
  let staked ← node.item "staked"
  let toBeReceived ← node.item "toBeReceived"
  let tbrNum ← pyRoundArg toBeReceived
  let rewards ← node.item "rewards"
  let claimCount ← node.item "claimCount"
  let claimPercentage ← node.item "claimPercentage"
  let cpNum ← pyRoundArg claimPercentage
  Except.ok
    [.divider,
     .image identicon "Node Identicon",
     .metric "Node Address" (.str ((node_address.take 4) ++ "...")),
     .markdown ("Status: **" ++ check_status status ++ "**"),
     .metric "Staked $DATA" staked,
     .metric "To be Received" (.num (pyRound2 tbrNum)),
     .metric "Total rewards" rewards,
     .metric "Claim Count" claimCount,
     .metric "Percentage of received claims %" (.num (pyRound2 cpNum))]

/-- Default of the timezone selectbox (line 202): the option at
`all_timezones.index("US/Eastern")`. -/
def selectboxDefaultTz : String := "US/Eastern"

/-- Python `for x in j`: lists yield their elements, strings their characters,
dicts their keys; other payloads raise `TypeError`. -/
def pyIter (j : Json) : Except String (List Json) :=
  match j with
  | .arr l => Except.ok l
  | .str s => Except.ok (s.toList.map fun c => Json.str (String.mk [c]))
  | .obj fields => Except.ok (fields.map fun kv => Json.str kv.1)
  | _ => Except.error "TypeError"

/-- Loop body of `display_latest_codes` (lines 204-207): format the claim
time in the selected zone — `strptime` needs a string argument — then write
the id with the formatted time. -/
def codeEventOf (selected_tz : String) (code : Json) :
    Except String DisplayEvent := do
  let claimTime ← code.item "claimTime"
  match claimTime with
  | .str timeStr => do
    let formatted ← convert_time_to_user_tz timeStr selected_tz
    let codeId ← code.item "id"
    Except.ok (.codeLine codeId formatted)
  | _ => Except.error "TypeError"

/-- `display_latest_codes` (lines 189-207).  The selectbox yields the
viewer's choice when one was made and `US/Eastern` (its default index)
otherwise. -/
def display_latest_codes (node_data : Json) (tzChoice : Option String) :
    Except String (List DisplayEvent) := do
  let selected := tzChoice.getD selectboxDefaultTz
  let data ← node_data.item "data"
  let node ← data.item "node"
  let codesJ ← node.item "claimedRewardCodes"
  let codes ← pyIter codesJ
  let events ← codes.mapM (codeEventOf selected)
  Except.ok (.selectbox "Select your timezone" selected :: events)

/-- Rounding applied to a payout value for display (line 270):
`math.ceil(float(payout["value"]))`, the mathematical ceiling. -/
def payoutDisplayValue (v : ℚ) : ℤ := ⌈v⌉

/-- Loop body of `display_payouts` (lines 265-274): the timestamp becomes a
naive UTC datetime and is formatted with the hard-coded zone name `"UTC"`
(not the viewer's selection); the value is ceiling-rounded. -/
def payoutEventsOf (payout : Json) : Except String (List DisplayEvent) := do
  let tsJ ← payout.item "timestamp"
  let ts ← pyIntCoerce tsJ
  let formatted ← convert_dt_to_user_tz (utcfromtimestamp ts) "UTC"
  let vJ ← payout.item "value"
  let v ← pyFloatCoerce vJ
  Except.ok [.payoutLine formatted (payoutDisplayValue v),
             .svgImage "assets/data_token.svg"]

/-- The payouts list must be a Python list for the in-place
`payouts.reverse()` call; any other payload lacks the method
(`AttributeError`). -/
def jsonAsList (j : Json) : Except String (List Json) :=
  match j with
  | .arr l => Except.ok l
  | _ => Except.error "AttributeError"

/-- A node-data value with the stored payouts list replaced (in position, as
the in-place list mutation leaves the dict structure unchanged). -/
def nodeDataWithPayouts (node_data dataV node : Json) (payouts : List Json) : Json :=
  node_data.setKey "data" (dataV.setKey "node" (node.setKey "payouts" (.arr payouts)))

/-- `display_payouts` (lines 242-278).  `payouts.reverse()` reverses the list
object stored inside `node_data` in place, so the function returns the
rendered events together with the node data as it stands afterwards: its
`payouts` entry now holds the reversed list.  The latest-codes panel is
rendered from that same (aliased) object. -/
def display_payouts (node_data : Json) (tzChoice : Option String) :
    Except String (List DisplayEvent × Json) := do
  let data ← node_data.item "data"
  let node ← data.item "node"
  let payoutsJ ← node.item "payouts"
  let payouts ← jsonAsList payoutsJ
  let payoutEvents ← payouts.reverse.mapM payoutEventsOf
  let codeEvents ←
    display_latest_codes (nodeDataWithPayouts node_data data node payouts.reverse) tzChoice
  Except.ok
    ([.divider, .header "Payouts", .header "Latest codes"]
       ++ payoutEvents.flatten ++ codeEvents ++ [.divider],
     nodeDataWithPayouts node_data data node payouts.reverse)

/-! ### Main flow -/

/-- Result of one Streamlit script run: the rendered events (or the exception
that escaped — Streamlit then shows a traceback instead of the page body) and
the list of endpoints requested, in request order. -/
structure MainResult where
  display : Except String (List DisplayEvent)
  calls : List String

/-- The condition guarding the success branch (line 297):
`node_data is not None and "data" in node_data and "node" in node_data["data"]`.
`and` short-circuits; the membership tests themselves can raise `TypeError`
on non-dict payloads. -/
def mainCondition (node_data : Option Json) : Except String Bool :=
  match node_data with
  | none => Except.ok false
  | some nd => do
    let hasData ← pyContains nd "data"
    if hasData then do
      let dataV ← nd.item "data"
      pyContains dataV "node"
    else Except.ok false

/-- Title of the page (line 288; the source file stores the literal
mojibake characters). -/
def titleText : String :=
  "âš¡ Streamr BrubeckScan Dashboard Appâš¡"

/-- Label of the testing expander (line 291). -/
def expanderLabel : String :=
  "Copy the address in this expander and paste above for testing ðŸŽ‰"

/-- Sample address offered for copy-paste (line 292). -/
def exampleAddress : String := "0x4a2A3501e50759250828ACd85E7450fb55A10a69"

/-- Validation error shown for a malformed address (lines 309-310). -/
def invalidAddressMsg : String :=
  "Invalid Ethereum address. It should be 42 characters long (including \x270x\x27) and hexadecimal."

/-- Could-not-fetch error shown when the node lookup fails (lines 304-305). -/
def fetchFailedMsg : String :=
  "Failed to fetch data for the given Ethereum address. Please make sure it is a valid Streamr node address."

/-- Prompt shown while the address box is empty (lines 314-315). -/
def noAddressWarning : String :=
  "Please enter a Streamr node Ethereum address to fetch data..."

/-- Widgets rendered before the address is processed (lines 288-292; the
text-input widget itself produces the address and is not an output event). -/
def preEvents : List DisplayEvent :=
  [.title titleText, .expander expanderLabel, .codeBlock exampleAddress]

/-- Link footer rendered on every run (lines 317-323). -/
def footerEvents : List DisplayEvent :=
  [.markdown "ðŸ”— **Useful Links**",
   .markdown "- [Streamr Network](https://network.streamr.network/)",
   .markdown "- [Streamr Hub](https://streamr.network/core)",
   .markdown "- [Earn $DATA](https://frens.streamr.network/intro)",
   .markdown "- [Streamr Twitter](https://twitter.com/streamr)",
   .markdown "ðŸ’¡ **Remember:** Keep building and shipping for a robust decentralized data economy!"]

/-- `main` (lines 281-323), for one script run.  Inputs: the network oracle,
the address sitting in the text box (the widget caps it at 42 characters and
yields `""` until the user types), and the timezone selection (`none` while
the viewer has not touched the selectbox).  (`main` is reserved by Lean,
hence the name `mainRun`.)  The metrics bundle is requested
(line 298) but its value is discarded, so rendering reads only the node
profile response. -/
def mainRun (oracle : Oracle) (node_address : String) (tzChoice : Option String) :
    MainResult :=
  if node_address = "" then
    { display := .ok (preEvents ++ [.warningMsg noAddressWarning] ++ footerEvents)
      calls := [] }
  else if pyReMatchAddress node_address then
    match fetch_node_data oracle node_address with
    | none =>
      { display := .ok (preEvents ++ [.errorMsg fetchFailedMsg] ++ footerEvents)
        calls := [nodeEndpoint node_address] }
    | some nd =>
      match mainCondition (some nd) with
      | .error e =>
        { display := .error e, calls := [nodeEndpoint node_address] }
      | .ok false =>
        { display := .ok (preEvents ++ [.errorMsg fetchFailedMsg] ++ footerEvents)
          calls := [nodeEndpoint node_address] }
      | .ok true =>
        { display := do
            let infoEvents ← display_node_info node_address nd
            let payoutResult ← display_payouts nd tzChoice
            Except.ok (preEvents ++ infoEvents ++ payoutResult.1 ++ footerEvents)
          calls := nodeEndpoint node_address :: metricsEndpoints node_address }
  else
    { display := .ok (preEvents ++ [.errorMsg invalidAddressMsg] ++ footerEvents)
      calls := [] }

/-! ### Concrete fixtures

A well-formed node profile used to evaluate the pipeline on concrete inputs:
two payouts (one with a numeric timestamp and the value `41.2`, one with a
string timestamp one day later and the value `41`) and one claim code whose
claim time is the spec's reference instant. -/

/-- Payout at 2023-01-01T12:00:00Z worth 41.2 `$DATA`. -/
def samplePayout1 : Json :=
  .obj [("timestamp", .num 1672574400), ("value", .num (Rat.divInt 206 5))]

/-- Payout at 2023-01-02T12:00:00Z worth 41 `$DATA`, timestamp as a string. -/
def samplePayout2 : Json :=
  .obj [("timestamp", .str "1672660800"), ("value", .num 41)]

/-- One claimed reward code. -/
def sampleCode : Json :=
  .obj [("id", .str "ABC123"), ("claimTime", .str "2023-01-01T12:00:00.000Z")]

/-- The `node` object of the sample profile; `toBeReceived` is `1.239`,
whose two-decimal display differs from the raw value. -/
def sampleNodeObj : Json := .obj
  [("identiconURL", .str "https://identicon/sample.png"),
   ("status", .bool true),
   ("staked", .num 10000),
   ("toBeReceived", .num (Rat.divInt 1239 1000)),
   ("rewards", .num 5000),
   ("claimCount", .num 321),
   ("claimPercentage", .num (Rat.divInt 9955 100)),
   ("payouts", .arr [samplePayout1, samplePayout2]),
   ("claimedRewardCodes", .arr [sampleCode])]

/-- The sample node-profile response body. -/
def sampleNodeData : Json := .obj [("data", .obj [("node", sampleNodeObj)])]

/-- `sampleNodeData` as it stands after `display_payouts` returned: the
stored payouts list is reversed. -/
def sampleNodeDataReversed : Json := .obj [("data", .obj [("node", .obj
  [("identiconURL", .str "https://identicon/sample.png"),
   ("status", .bool true),
   ("staked", .num 10000),
   ("toBeReceived", .num (Rat.divInt 1239 1000)),
   ("rewards", .num 5000),
   ("claimCount", .num 321),
   ("claimPercentage", .num (Rat.divInt 9955 100)),
   ("payouts", .arr [samplePayout2, samplePayout1]),
   ("claimedRewardCodes", .arr [sampleCode])])])]

/-- A valid node address (the sample one the page offers). -/
def validAddr : String := exampleAddress

/-- Environment in which the node profile lookup succeeds with
`sampleNodeData` and every metrics endpoint fails. -/
def sampleOracle : Oracle :=
  fun u => if u = nodeEndpoint validAddr then some sampleNodeData else none

/-- Same node profile as `sampleOracle` but every metrics endpoint answers
with a payload instead of failing. -/
def sampleOracle2 : Oracle :=
  fun u => if u = nodeEndpoint validAddr then some sampleNodeData else some (.num 7)

/-- Environment in which every request fails. -/
def noneOracle : Oracle := fun _ => none

/-- Environment whose node profile response is a dict whose `data` member is
a number — well-formed JSON with none of the expected inner keys. -/
def badShapeOracle : Oracle := fun _ => some (.obj [("data", .num 5)])

/-! ### Statement helpers -/

/-- Whether an `st.error` box occurs among the rendered events. -/
def hasErrorEvent (evs : List DisplayEvent) : Bool :=
  evs.any fun e =>
    match e with
    | .errorMsg _ => true
    | _ => false

/-- The payload shown by the first metric widget with the given label. -/
def metricValue (label : String) (evs : List DisplayEvent) : Option Json :=
  evs.findSome? fun e =>
    match e with
    | .metric l v => if l = label then some v else none
    | _ => none

/-- The payout rows among the rendered events: formatted time and rounded
value, in render order. -/
def payoutLinesOf (evs : List DisplayEvent) : List (String × ℤ) :=
  evs.filterMap fun e =>
    match e with
    | .payoutLine t v => some (t, v)
    | _ => none

/-- Timestamp of the first stored payout, coerced to an integer; observes the
order of the payouts list inside a node-data value. -/
def firstPayoutTimestamp (j : Json) : Option ℤ :=
  ((j.item "data").bind fun d => (d.item "node").bind fun n =>
    (n.item "payouts").bind fun p =>
      match p with
      | .arr (first :: _) => (first.item "timestamp").bind pyIntCoerce
      | _ => Except.error "TypeError").toOption

/-! ### Theorems -/

theorem exceptBind_ok {ε α β : Type} (a : α) (f : α → Except ε β) :
    (Except.ok a : Except ε α) >>= f = f a := rfl

theorem exceptBind_error {ε α β : Type} (e : ε) (f : α → Except ε β) :
    (Except.error e : Except ε α) >>= f = Except.error e := rfl

/-- C8: `convert_time_to_user_tz` applied to the ISO timestamp string
`2023-01-01T12:00:00.000Z` and the timezone `US/Eastern` returns
`07:00:00 AM`. -/
theorem c8_claim_code_time_eastern :
    convert_time_to_user_tz "2023-01-01T12:00:00.000Z" "US/Eastern" =
      Except.ok "07:00:00 AM" := rfl

/-- C9: converting the Unix timestamp `1672574400` to a datetime and
formatting it with `convert_dt_to_user_tz` under `UTC` yields exactly
`Sun, 01 Jan 2023 12:00:00 UTC`. -/
theorem c9_payout_time_utc :
    convert_dt_to_user_tz (utcfromtimestamp 1672574400) "UTC" =
      Except.ok "Sun, 01 Jan 2023 12:00:00 UTC" := rfl

/-- C10: the payout-value display rounding is the mathematical ceiling: a
payout value of `41.2` renders as `42` and a payout value of `41.0` renders
as `41` — both in isolation and through `display_payouts` on the sample
profile, whose payouts carry exactly those two values. -/
theorem c10_payout_rounding_is_ceiling :
    (∀ v : ℚ, payoutDisplayValue v = ⌈v⌉) ∧
    payoutDisplayValue (41.2 : ℚ) = 42 ∧
    payoutDisplayValue (41.0 : ℚ) = 41 ∧
    (display_payouts sampleNodeData none).map (fun r => payoutLinesOf r.1) =
      Except.ok [("Mon, 02 Jan 2023 12:00:00 UTC", 41),
                 ("Sun, 01 Jan 2023 12:00:00 UTC", 42)] := by
  refine ⟨fun v => rfl, ?_, ?_, rfl⟩
  · unfold payoutDisplayValue
    rw [Int.ceil_eq_iff]
    norm_num
  · unfold payoutDisplayValue
    rw [Int.ceil_eq_iff]
    norm_num

/-- C1 counterexample: the empty input does not match the address regex, yet
the program renders a `st.warning` prompt, not a validation-error box; no
error event occurs in the rendered output (network calls are indeed zero). -/
theorem c1_counterexample_empty_input_no_validation_error :
    pyReMatchAddress "" = false ∧
    (mainRun sampleOracle "" none).calls = [] ∧
    (mainRun sampleOracle "" none).display =
      Except.ok (preEvents ++ [DisplayEvent.warningMsg noAddressWarning] ++ footerEvents) ∧
    hasErrorEvent (preEvents ++ [DisplayEvent.warningMsg noAddressWarning] ++ footerEvents)
      = false :=
  ⟨rfl, rfl, rfl, rfl⟩

/-- C3 counterexample: the sample profile stores `toBeReceived = 1.239`, but
the rendered "To be Received" metric shows `1.24` — a two-decimal rounding
the claim's list of permitted transformations does not include. -/
theorem c3_counterexample_toBeReceived_rounded :
    (sampleNodeData.item "data").bind
        (fun d => (d.item "node").bind fun n => n.item "toBeReceived") =
      Except.ok (Json.num (Rat.divInt 1239 1000)) ∧
    (display_node_info validAddr sampleNodeData).map (metricValue "To be Received") =
      Except.ok (some (Json.num (Rat.divInt 31 25))) ∧
    Rat.divInt 31 25 ≠ Rat.divInt 1239 1000 :=
  ⟨rfl, rfl, by decide⟩

/-- C4 counterexample: with the viewer's timezone choice `US/Eastern`, the
payout rows are still formatted with the hard-coded zone `UTC`
(`12:00:00 UTC`), although converting the same instant into the chosen zone
would read `07:00:00 EST`; only the claim-code line uses the choice. -/
theorem c4_counterexample_payout_rendered_utc_despite_eastern_choice :
    display_payouts sampleNodeData (some "US/Eastern") = Except.ok
      ([.divider, .header "Payouts", .header "Latest codes",
        .payoutLine "Mon, 02 Jan 2023 12:00:00 UTC" 41,
        .svgImage "assets/data_token.svg",
        .payoutLine "Sun, 01 Jan 2023 12:00:00 UTC" 42,
        .svgImage "assets/data_token.svg",
        .selectbox "Select your timezone" "US/Eastern",
        .codeLine (.str "ABC123") "07:00:00 AM",
        .divider], sampleNodeDataReversed) ∧
    convert_dt_to_user_tz (utcfromtimestamp 1672574400) "US/Eastern" =
      Except.ok "Sun, 01 Jan 2023 07:00:00 EST" :=
  ⟨rfl, rfl⟩

/-- C6 counterexample: after `display_payouts` returns on the sample profile,
the payouts list stored inside the node data is reversed — the fetched node
data is mutated in place, observably by the first stored timestamp. -/
theorem c6_counterexample_stored_payouts_mutated :
    (display_payouts sampleNodeData none).map Prod.snd =
      Except.ok sampleNodeDataReversed ∧
    sampleNodeDataReversed ≠ sampleNodeData :=
  ⟨rfl, fun h => absurd (congrArg firstPayoutTimestamp h) (by decide)⟩

/-- C7 counterexample: a 200 response whose body is the well-formed JSON
object with `data` bound to the number `5` — a response missing the expected
`node` key — makes the membership test `"node" in node_data["data"]` raise
`TypeError`: the run ends in an exception, not in the could-not-fetch
message. -/
theorem c7_counterexample_nonobject_data_member_raises :
    badShapeOracle (nodeEndpoint validAddr) = some (Json.obj [("data", Json.num 5)]) ∧
    (mainRun badShapeOracle validAddr none).display = Except.error "TypeError" ∧
    (mainRun badShapeOracle validAddr none).calls = [nodeEndpoint validAddr] :=
  ⟨rfl, rfl, rfl⟩

/-- C1 (amended): for every *nonempty* input string rejected by the address
check, the run renders the validation-error box and performs zero network
calls; the empty string also triggers zero calls but renders the
enter-an-address warning instead of an error. -/
theorem c1_invalid_address_no_network_calls (oracle : Oracle) (s : String)
    (tzChoice : Option String) (h : pyReMatchAddress s = false) :
    (mainRun oracle s tzChoice).calls = [] ∧
    (s ≠ "" → (mainRun oracle s tzChoice).display =
      Except.ok (preEvents ++ [DisplayEvent.errorMsg invalidAddressMsg] ++ footerEvents)) ∧
    (s = "" → (mainRun oracle s tzChoice).display =
      Except.ok (preEvents ++ [DisplayEvent.warningMsg noAddressWarning] ++ footerEvents)) := by
  by_cases hs : s = ""
  · subst hs
    exact ⟨rfl, fun hne => absurd rfl hne, fun _ => rfl⟩
  · refine ⟨?_, fun _ => ?_, fun he => absurd he hs⟩ <;> simp [mainRun, hs, h]

/-- Witness for C1 (amended) at the concrete rejected input `not-an-address`. -/
theorem c1_invalid_address_no_network_calls_witness :
    (mainRun sampleOracle "not-an-address" none).calls = [] ∧
    (mainRun sampleOracle "not-an-address" none).display =
      Except.ok (preEvents ++ [DisplayEvent.errorMsg invalidAddressMsg] ++ footerEvents) :=
  ⟨(c1_invalid_address_no_network_calls sampleOracle "not-an-address" none rfl).1,
   (c1_invalid_address_no_network_calls sampleOracle "not-an-address" none rfl).2.1
     (by decide)⟩

/-- C5: the rendered output of a run is a function of the node-profile
response alone — for any two environments that agree on the node endpoint
(and may differ arbitrarily on every metrics endpoint), `mainRun` renders
identically, because the `get_metrics_data` value is never read. -/
theorem c5_display_depends_only_on_node_response (o1 o2 : Oracle)
    (addr : String) (tzChoice : Option String)
    (h : o1 (nodeEndpoint addr) = o2 (nodeEndpoint addr)) :
    (mainRun o1 addr tzChoice).display = (mainRun o2 addr tzChoice).display := by
  unfold mainRun fetch_node_data fetch_data
  rw [h]

/-- Witness for C5: all three metrics endpoints failing versus all three
answering changes nothing in the rendered output. -/
theorem c5_display_depends_only_on_node_response_witness :
    (mainRun sampleOracle validAddr none).display =
      (mainRun sampleOracle2 validAddr none).display :=
  c5_display_depends_only_on_node_response sampleOracle sampleOracle2 validAddr none rfl

/-- C2: the metrics bundle holds exactly the sub-fetches that succeeded —
for each of the three declared keys, the bundle's entry equals the oracle's
response at that key's URL (present with the parsed payload on success,
absent on failure, and determined by that URL alone, which is the
independence of the sub-fetches) — and no other key ever occurs.  The
function is total: a failed sub-fetch is dropped, never an exception. -/
theorem c2_metrics_bundle_exact_and_independent (oracle : Oracle) (addr : String) :
    (∀ k u, (k, u) ∈ metricsSpec addr →
      (get_metrics_data oracle addr).lookup k = oracle u) ∧
    (∀ kv, kv ∈ get_metrics_data oracle addr →
      kv.1 ∈ (metricsSpec addr).map Prod.fst) := by
  constructor
  · intro k u hmem
    simp only [metricsSpec, List.mem_cons, List.not_mem_nil, or_false,
      Prod.mk.injEq] at hmem
    rcases hmem with ⟨hk, hu⟩ | ⟨hk, hu⟩ | ⟨hk, hu⟩ <;> subst hk <;> subst hu <;>
      simp only [get_metrics_data, metricsSpec, fetch_data, List.filterMap_cons,
        List.filterMap_nil] <;>
      cases h1 : oracle (DATA_REWARDS_BASE ++ "/" ++ addr) <;>
      cases h2 : oracle (CLAIMED_REWARDS_BASE ++ "/" ++ addr) <;>
      cases h3 : oracle APR_APY_BASE
    all_goals rfl
  · intro kv hkv
    simp only [get_metrics_data, List.mem_filterMap] at hkv
    obtain ⟨a, ha, hf⟩ := hkv
    cases hoa : fetch_data oracle a.2 with
    | none => rw [hoa] at hf; exact Option.noConfusion hf
    | some j =>
      rw [hoa] at hf
      have hkv : (a.1, j) = kv := Option.some.inj hf
      rw [← hkv]
      exact List.mem_map_of_mem Prod.fst ha

/-- Witness for C2 at a concrete environment: the bundle entry for the
accumulated-rewards key equals that endpoint's own response. -/
theorem c2_metrics_bundle_exact_and_independent_witness :
    (get_metrics_data sampleOracle2 validAddr).lookup "acc_rewards" =
      sampleOracle2 (DATA_REWARDS_BASE ++ "/" ++ validAddr) :=
  (c2_metrics_bundle_exact_and_independent sampleOracle2 validAddr).1
    "acc_rewards" (DATA_REWARDS_BASE ++ "/" ++ validAddr) (by simp [metricsSpec])

/-- C3 (amended): for a well-formed profile response, `display_node_info`
renders exactly the declared fields in order, where the only transformations
are: the node address is truncated to its first four characters plus `...`,
the status is rendered through `check_status` as a colored OK/NO marker, and
`toBeReceived` as well as `claimPercentage` are rounded to two decimals; the
identicon URL, staked amount, rewards and claim count are shown exactly as
extracted. -/
theorem c3_node_info_exact_fields (addr : String)
    (nd dataV node icon status staked tbr rewards cc cp : Json)
    (qtbr qcp : ℚ)
    (hd : nd.item "data" = Except.ok dataV)
    (hn : dataV.item "node" = Except.ok node)
    (hi : node.item "identiconURL" = Except.ok icon)
    (hs : node.item "status" = Except.ok status)
    (hst : node.item "staked" = Except.ok staked)
    (htbr : node.item "toBeReceived" = Except.ok tbr)
    (htbrq : pyRoundArg tbr = Except.ok qtbr)
    (hr : node.item "rewards" = Except.ok rewards)
    (hcc : node.item "claimCount" = Except.ok cc)
    (hcp : node.item "claimPercentage" = Except.ok cp)
    (hcpq : pyRoundArg cp = Except.ok qcp) :
    display_node_info addr nd = Except.ok
      [.divider,
       .image icon "Node Identicon",
       .metric "Node Address" (.str (addr.take 4 ++ "...")),
       .markdown ("Status: **" ++ check_status status ++ "**"),
       .metric "Staked $DATA" staked,
       .metric "To be Received" (.num (pyRound2 qtbr)),
       .metric "Total rewards" rewards,
       .metric "Claim Count" cc,
       .metric "Percentage of received claims %" (.num (pyRound2 qcp))] := by
  unfold display_node_info
  simp only [hd, hn, hi, hs, hst, htbr, htbrq, hr, hcc, hcp, hcpq, exceptBind_ok]

/-- Witness for C3 (amended) on the sample profile. -/
theorem c3_node_info_exact_fields_witness :
    display_node_info validAddr sampleNodeData = Except.ok
      [.divider,
       .image (.str "https://identicon/sample.png") "Node Identicon",
       .metric "Node Address" (.str "0x4a..."),
       .markdown "Status: **:green[OK]**",
       .metric "Staked $DATA" (.num 10000),
       .metric "To be Received" (.num (Rat.divInt 31 25)),
       .metric "Total rewards" (.num 5000),
       .metric "Claim Count" (.num 321),
       .metric "Percentage of received claims %" (.num (Rat.divInt 9955 100))] :=
  c3_node_info_exact_fields validAddr sampleNodeData
    (.obj [("node", sampleNodeObj)]) sampleNodeObj
    (.str "https://identicon/sample.png") (.bool true) (.num 10000)
    (.num (Rat.divInt 1239 1000)) (.num 5000) (.num 321)
    (.num (Rat.divInt 9955 100)) (Rat.divInt 1239 1000) (Rat.divInt 9955 100)
    rfl rfl rfl rfl rfl rfl rfl rfl rfl rfl rfl

/-- C4 (amended): every rendered payout row is formatted with the hard-coded
zone name `UTC`, independent of the viewer's selection; every claim-code line
is formatted with the zone the selectbox yielded; and the selectbox default
is `US/Eastern`, not `UTC` — rendering with no selection equals rendering
with `US/Eastern` selected. -/
theorem c4_payout_rows_utc_codes_viewer_tz :
    (∀ payout evs, payoutEventsOf payout = Except.ok evs →
      ∃ (n : ℤ) (v : ℤ) (t : String),
        convert_dt_to_user_tz (utcfromtimestamp n) "UTC" = Except.ok t ∧
        evs = [DisplayEvent.payoutLine t v, DisplayEvent.svgImage "assets/data_token.svg"]) ∧
    (∀ tz code e, codeEventOf tz code = Except.ok e →
      ∃ (i : Json) (s t : String),
        code.item "claimTime" = Except.ok (Json.str s) ∧
        convert_time_to_user_tz s tz = Except.ok t ∧
        code.item "id" = Except.ok i ∧
        e = DisplayEvent.codeLine i t) ∧
    selectboxDefaultTz = "US/Eastern" ∧
    (∀ nd, display_latest_codes nd none = display_latest_codes nd (some "US/Eastern")) := by
  refine ⟨?_, ?_, rfl, fun nd => rfl⟩
  · intro payout evs h
    unfold payoutEventsOf at h
    cases h1 : payout.item "timestamp" with
    | error e => rw [h1, exceptBind_error] at h; exact Except.noConfusion h
    | ok tsJ =>
    rw [h1, exceptBind_ok] at h
    cases h2 : pyIntCoerce tsJ with
    | error e => rw [h2, exceptBind_error] at h; exact Except.noConfusion h
    | ok n =>
    rw [h2, exceptBind_ok] at h
    cases h3 : convert_dt_to_user_tz (utcfromtimestamp n) "UTC" with
    | error e => rw [h3, exceptBind_error] at h; exact Except.noConfusion h
    | ok t =>
    rw [h3, exceptBind_ok] at h
    cases h4 : payout.item "value" with
    | error e => rw [h4, exceptBind_error] at h; exact Except.noConfusion h
    | ok vJ =>
    rw [h4, exceptBind_ok] at h
    cases h5 : pyFloatCoerce vJ with
    | error e => rw [h5, exceptBind_error] at h; exact Except.noConfusion h
    | ok v =>
    rw [h5, exceptBind_ok] at h
    exact ⟨n, payoutDisplayValue v, t, h3, (Except.ok.inj h).symm⟩
  · intro tz code e h
    unfold codeEventOf at h
    cases h1 : code.item "claimTime" with
    | error er => rw [h1, exceptBind_error] at h; exact Except.noConfusion h
    | ok ctJ =>
    rw [h1, exceptBind_ok] at h
    cases ctJ with
    | str s =>
      replace h : (do
          let formatted ← convert_time_to_user_tz s tz
          let codeId ← code.item "id"
          Except.ok (DisplayEvent.codeLine codeId formatted)) = Except.ok e := h
      cases h2 : convert_time_to_user_tz s tz with
      | error er => rw [h2, exceptBind_error] at h; exact Except.noConfusion h
      | ok t =>
      rw [h2, exceptBind_ok] at h
      cases h3 : code.item "id" with
      | error er => rw [h3, exceptBind_error] at h; exact Except.noConfusion h
      | ok i =>
      rw [h3, exceptBind_ok] at h
      exact ⟨i, s, t, rfl, h2, rfl, (Except.ok.inj h).symm⟩
    | null => exact Except.noConfusion h
    | bool b => exact Except.noConfusion h
    | num q => exact Except.noConfusion h
    | arr l => exact Except.noConfusion h
    | obj fields => exact Except.noConfusion h

/-- Witness for C4 (amended) on the sample payout worth 41.2 at
2023-01-01T12:00:00Z. -/
theorem c4_payout_rows_utc_codes_viewer_tz_witness :
    ∃ (n : ℤ) (v : ℤ) (t : String),
      convert_dt_to_user_tz (utcfromtimestamp n) "UTC" = Except.ok t ∧
      [DisplayEvent.payoutLine "Sun, 01 Jan 2023 12:00:00 UTC" 42,
       DisplayEvent.svgImage "assets/data_token.svg"] =
        [DisplayEvent.payoutLine t v, DisplayEvent.svgImage "assets/data_token.svg"] :=
  c4_payout_rows_utc_codes_viewer_tz.1 samplePayout1
    [DisplayEvent.payoutLine "Sun, 01 Jan 2023 12:00:00 UTC" 42,
     DisplayEvent.svgImage "assets/data_token.svg"] rfl

theorem jsonAsList_ok_iff (j : Json) (l : List Json) :
    jsonAsList j = Except.ok l ↔ j = Json.arr l := by
  cases j <;> simp [jsonAsList]

/-- C6 (amended): `display_payouts` does mutate the fetched node data — on
every successful run the node data afterwards is the original with the stored
payouts list replaced in place by its reverse (all other fields untouched,
the entry keeping its position). -/
theorem c6_display_payouts_reverses_stored_list (nd : Json)
    (tzChoice : Option String) (evs : List DisplayEvent) (nd' : Json)
    (h : display_payouts nd tzChoice = Except.ok (evs, nd')) :
    ∃ dataV node payouts,
      nd.item "data" = Except.ok dataV ∧
      dataV.item "node" = Except.ok node ∧
      node.item "payouts" = Except.ok (Json.arr payouts) ∧
      nd' = nodeDataWithPayouts nd dataV node payouts.reverse := by
  unfold display_payouts at h
  cases h1 : nd.item "data" with
  | error e => rw [h1, exceptBind_error] at h; exact Except.noConfusion h
  | ok dataV =>
  rw [h1, exceptBind_ok] at h
  cases h2 : dataV.item "node" with
  | error e => rw [h2, exceptBind_error] at h; exact Except.noConfusion h
  | ok node =>
  rw [h2, exceptBind_ok] at h
  cases h3 : node.item "payouts" with
  | error e => rw [h3, exceptBind_error] at h; exact Except.noConfusion h
  | ok payoutsJ =>
  rw [h3, exceptBind_ok] at h
  cases h4 : jsonAsList payoutsJ with
  | error e => rw [h4, exceptBind_error] at h; exact Except.noConfusion h
  | ok payouts =>
  rw [h4, exceptBind_ok] at h
  cases h5 : payouts.reverse.mapM payoutEventsOf with
  | error e => rw [h5, exceptBind_error] at h; exact Except.noConfusion h
  | ok payoutEvents =>
  rw [h5, exceptBind_ok] at h
  cases h6 : display_latest_codes (nodeDataWithPayouts nd dataV node payouts.reverse) tzChoice with
  | error e => rw [h6, exceptBind_error] at h; exact Except.noConfusion h
  | ok codeEvents =>
  rw [h6, exceptBind_ok] at h
  refine ⟨dataV, node, payouts, rfl, h2, ?_, ?_⟩
  · rw [(jsonAsList_ok_iff payoutsJ payouts).mp h4] at h3
    exact h3
  · exact (congrArg Prod.snd (Except.ok.inj h)).symm

/-- Witness for C6 (amended) on the sample profile. -/
theorem c6_display_payouts_reverses_stored_list_witness :
    ∃ dataV node payouts,
      sampleNodeData.item "data" = Except.ok dataV ∧
      dataV.item "node" = Except.ok node ∧
      node.item "payouts" = Except.ok (Json.arr payouts) ∧
      sampleNodeDataReversed = nodeDataWithPayouts sampleNodeData dataV node payouts.reverse :=
  c6_display_payouts_reverses_stored_list sampleNodeData none
    [.divider, .header "Payouts", .header "Latest codes",
     .payoutLine "Mon, 02 Jan 2023 12:00:00 UTC" 41,
     .svgImage "assets/data_token.svg",
     .payoutLine "Sun, 01 Jan 2023 12:00:00 UTC" 42,
     .svgImage "assets/data_token.svg",
     .selectbox "Select your timezone" "US/Eastern",
     .codeLine (.str "ABC123") "07:00:00 AM",
     .divider] sampleNodeDataReversed rfl

/-- C7 (amended): when the node lookup fails because the request itself
failed (network error, non-2xx, malformed body — all `None`), or because the
response is a dict without a `data` key, or a dict whose `data` is a dict
without a `node` key, the run renders the could-not-fetch error box, performs
exactly the one node request (no retry), and ends without an exception.  A
response of any other shape (e.g. `data` bound to a non-dict) instead raises
`TypeError` — see the counterexample. -/
theorem c7_lookup_failure_shows_message :
    mainCondition none = Except.ok false ∧
    (∀ fields : List (String × Json), fields.lookup "data" = none →
      mainCondition (some (Json.obj fields)) = Except.ok false) ∧
    (∀ (fields d : List (String × Json)),
      fields.lookup "data" = some (Json.obj d) → d.lookup "node" = none →
      mainCondition (some (Json.obj fields)) = Except.ok false) ∧
    (∀ (oracle : Oracle) (s : String) (tzChoice : Option String),
      pyReMatchAddress s = true →
      mainCondition (oracle (nodeEndpoint s)) = Except.ok false →
      (mainRun oracle s tzChoice).display =
        Except.ok (preEvents ++ [DisplayEvent.errorMsg fetchFailedMsg] ++ footerEvents) ∧
      (mainRun oracle s tzChoice).calls = [nodeEndpoint s]) := by
  refine ⟨rfl, ?_, ?_, ?_⟩
  · intro fields hl
    simp [mainCondition, pyContains, hl, exceptBind_ok]
  · intro fields d hl hn
    simp [mainCondition, pyContains, Json.item, hl, hn, exceptBind_ok]
  · intro oracle s tzChoice hm hc
    have hs : s ≠ "" := by
      intro he
      subst he
      exact absurd hm (by decide)
    cases ho : oracle (nodeEndpoint s) with
    | none =>
      constructor <;> simp [mainRun, hs, hm, fetch_node_data, fetch_data, ho]
    | some nd =>
      rw [ho] at hc
      constructor <;> simp [mainRun, hs, hm, fetch_node_data, fetch_data, ho, hc]

/-- Witness for C7 (amended): a run in which every request fails. -/
theorem c7_lookup_failure_shows_message_witness :
    (mainRun noneOracle validAddr none).display =
      Except.ok (preEvents ++ [DisplayEvent.errorMsg fetchFailedMsg] ++ footerEvents) ∧
    (mainRun noneOracle validAddr none).calls = [nodeEndpoint validAddr] :=
  c7_lookup_failure_shows_message.2.2.2 noneOracle validAddr none (by decide) rfl
